import Mathlib

/-!
# Configuration dialog of ArduIDE (`gui/ConfigDialog.cpp`)

A shallow embedding of `ConfigWidget` and `ConfigDialog`: the widgets the
dialog reads and writes, the set `mChangedFields` of changed widgets, the
settings store reached through `ideApp->settings()`, and the slots
`fieldChange`, `chooseFont`, `chooseArduinoPath`, `chooseSketchbookPath`,
`initializePage`, `saveConfig`, `apply` and `accept`.

`mChangedFields` is a `QSet<QWidget *>`: a set whose `foreach` traversal
order is not determined by its contents.  The set is a `Finset Field`, and
`saveConfig` takes the traversal order as an argument; `IterationOrder`
says that a list is one of the possible traversals of a set.
-/

namespace ArduIDE

/-! ## Data model -/

/-- The widgets that the dialog ever inserts into `mChangedFields`: the
senders connected to `fieldChange` in `setupUi` (lines 70-72) and the font
label inserted by `chooseFont` (line 105). -/
inductive Field where
  | arduinoPathEdit
  | sketchbookPathEdit
  | verboseBox
  | fontLabel
  deriving DecidableEq, Repr, Fintype

/-- A `QFont`, as far as `updateFontLabel` looks at it. -/
structure QFont where
  family : String
  pointSize : Int
  deriving DecidableEq, Repr

/-- Modelled from the spec: the lexer of the preview editor (`QsciLexer`,
`LexerArduino`, not in the sources).  It "exposes current font/lexer styling
for display and accepts style changes for live preview": `setDefaultFont`
sets the default font, `setFont` the font of every style, and
`font(LexerArduino::Default)` reads the style font back. -/
structure Lexer where
  defaultFont : QFont
  font : QFont
  deriving DecidableEq, Repr

/-- Modelled from the spec: the preview editor (`Editor`, not in the
sources): its text and its lexer. -/
structure Editor where
  text : String
  lexer : Lexer
  deriving DecidableEq, Repr

/-- Modelled from the spec: the Settings Store (`env/Settings.h`, not in the
sources), "typed get/set per setting key (arduino/toolchain path,
sketch/workspace path, verbose-build flag, editor font, lexer style
properties)". -/
structure Settings where
  arduinoPath : String
  sketchPath : String
  verboseUpload : Bool
  editorFont : QFont
  lexerFont : QFont
  deriving DecidableEq, Repr

/-- Modelled from the spec: `Settings::setArduinoPath`. -/
def Settings.setArduinoPath (st : Settings) (path : String) : Settings :=
  { st with arduinoPath := path }

/-- Modelled from the spec: `Settings::setSketchPath`. -/
def Settings.setSketchPath (st : Settings) (path : String) : Settings :=
  { st with sketchPath := path }

/-- Modelled from the spec: `Settings::setVerboseUpload`. -/
def Settings.setVerboseUpload (st : Settings) (b : Bool) : Settings :=
  { st with verboseUpload := b }

/-- Modelled from the spec: `Settings::saveEditorSettings`, which stores the
editor font shown by the given editor. -/
def Settings.saveEditorSettings (st : Settings) (e : Editor) : Settings :=
  { st with editorFont := e.lexer.defaultFont }

/-- Modelled from the spec: `Settings::saveLexerProperties`, which stores the
style properties of the given lexer. -/
def Settings.saveLexerProperties (st : Settings) (l : Lexer) : Settings :=
  { st with lexerFont := l.font }

/-- The label `uiEditor.fontLabel`: its `selectedFont` property, its font
and its text. -/
structure FontLabel where
  selectedFont : QFont
  font : QFont
  text : String
  deriving DecidableEq, Repr

/-- The members of `ConfigWidget` (`ConfigDialog.h`, lines 43-49): the
controls of the three pages, `mChangedFields` and `mEditor`. -/
structure ConfigWidget where
  arduinoPathEdit : String
  sketchbookPathEdit : String
  verboseBox : Bool
  fontLabel : FontLabel
  mChangedFields : Finset Field
  mEditor : Editor
  deriving DecidableEq

/-- Everything `ConfigWidget` can touch: itself, the settings store of the
application, the warnings shown with `QMessageBox::warning`, and how many
times `MainWindow::configureEditors` has run. -/
structure State where
  settings : Settings
  widget : ConfigWidget
  warnings : List String
  configureEditorsCalls : Nat
  deriving DecidableEq

/-- A list is a traversal of the set `D`: it visits every element of `D`
once and nothing else. -/
def IterationOrder (order : List Field) (D : Finset Field) : Prop :=
  order.Nodup ∧ ∀ f, f ∈ order ↔ f ∈ D

instance (order : List Field) (D : Finset Field) : Decidable (IterationOrder order D) := by
  unfold IterationOrder
  exact instDecidableAnd

/-! ## Page indexes and slots of `ConfigWidget` -/

/-- Page index `EditorIndex` of `enum ConfigPageIndex`. -/
def EditorIndex : Int := 0
/-- Page index `PathsIndex` of `enum ConfigPageIndex`. -/
def PathsIndex : Int := 1
/-- Page index `BuildIndex` of `enum ConfigPageIndex`. -/
def BuildIndex : Int := 2

/-- The `sampleText` of `initializePage`. -/
def sampleText : String :=
  "/* Example code */\n#include <EEPROM/EEPROM.h>\n\nint a, b = 3;\nvoid loop()\n\x7b\n    Serial.println(\"Hello, World!\");\n\x7d\n"

/-- `ConfigWidget::fieldChange` (lines 123-128): the sender is inserted into
`mChangedFields`. -/
def fieldChange (sender : Field) (w : ConfigWidget) : ConfigWidget :=
  { w with mChangedFields := insert sender w.mChangedFields }

/-- `uiPaths.arduinoPathEdit->setText(t)`.  A line edit emits `textChanged`
when its text changes, and `setupUi` (line 70) connects that signal to
`fieldChange`. -/
def setArduinoPathText (t : String) (w : ConfigWidget) : ConfigWidget :=
  if w.arduinoPathEdit = t then w
  else fieldChange Field.arduinoPathEdit { w with arduinoPathEdit := t }

/-- `uiPaths.sketchbookPathEdit->setText(t)`, with the connection of
line 71. -/
def setSketchbookPathText (t : String) (w : ConfigWidget) : ConfigWidget :=
  if w.sketchbookPathEdit = t then w
  else fieldChange Field.sketchbookPathEdit { w with sketchbookPathEdit := t }

/-- `uiBuild.verboseBox->setChecked(b)`.  A check box emits `stateChanged`
when its state changes, and `setupUi` (line 72) connects that signal to
`fieldChange`. -/
def setVerboseChecked (b : Bool) (w : ConfigWidget) : ConfigWidget :=
  if w.verboseBox = b then w
  else fieldChange Field.verboseBox { w with verboseBox := b }

/-- `ConfigWidget::updateFontLabel` (lines 79-86). -/
def updateFontLabel (f : QFont) (w : ConfigWidget) : ConfigWidget :=
  { w with fontLabel :=
      { selectedFont := f, font := f, text := f.family ++ " " ++ toString f.pointSize } }

/-- `ConfigWidget::setupFontChooser` (lines 88-92). -/
def setupFontChooser (w : ConfigWidget) : ConfigWidget :=
  updateFontLabel w.mEditor.lexer.font w

/-- `ConfigWidget::chooseFont` (lines 94-107).  `dialog` is what
`QFontDialog::getFont` hands back: `none` when the user cancels (`ok` is
false), the chosen font otherwise. -/
def chooseFont (dialog : Option QFont) (w : ConfigWidget) : ConfigWidget :=
  match dialog with
  | none => w
  | some f =>
    let w1 := { w with mEditor := { w.mEditor with lexer := { defaultFont := f, font := f } } }
    let w2 := updateFontLabel f w1
    { w2 with mChangedFields := insert Field.fontLabel w2.mChangedFields }

/-- `ConfigWidget::chooseArduinoPath` (lines 109-114).  `path` is what
`QFileDialog::getExistingDirectory` returns, empty when cancelled. -/
def chooseArduinoPath (path : String) (w : ConfigWidget) : ConfigWidget :=
  if path.isEmpty then w else setArduinoPathText path w

/-- `ConfigWidget::chooseSketchbookPath` (lines 116-121). -/
def chooseSketchbookPath (path : String) (w : ConfigWidget) : ConfigWidget :=
  if path.isEmpty then w else setSketchbookPathText path w

/-- `ConfigWidget::initializePage` (lines 26-52): a `switch` on the page
index, with no record of whether the page was shown before. -/
def initializePage (index : Int) (s : State) : State :=
  if index = EditorIndex then
    let w := setupFontChooser s.widget
    { s with widget := { w with mEditor := { w.mEditor with text := sampleText } } }
  else if index = PathsIndex then
    let w := setArduinoPathText s.settings.arduinoPath s.widget
    { s with widget := setSketchbookPathText s.settings.sketchPath w }
  else if index = BuildIndex then
    { s with widget := setVerboseChecked s.settings.verboseUpload s.widget }
  else s

/-- The text of the warning of line 140. -/
def invalidArduinoPathWarning : String :=
  "This path does not contain a valid Arduino installation, please choose another."

/-- The `foreach` loop of `ConfigWidget::saveConfig` (lines 133-152) over
the fields in traversal order.  The result is `false` when the loop leaves
the function through `return false` (line 141), together with the state at
that point; `isValidArduinoPath` stands for `Toolkit::isValidArduinoPath`. -/
def saveLoop (isValidArduinoPath : String → Bool) : List Field → State → Bool × State
  | [], s => (true, s)
  | field :: rest, s =>
    if field = Field.arduinoPathEdit then
      let path := s.widget.arduinoPathEdit
      if ! isValidArduinoPath path then
        (false, { s with warnings := s.warnings ++ [invalidArduinoPathWarning] })
      else
        saveLoop isValidArduinoPath rest
          { s with settings := s.settings.setArduinoPath path }
    else if field = Field.sketchbookPathEdit then
      saveLoop isValidArduinoPath rest
        { s with settings := s.settings.setSketchPath s.widget.sketchbookPathEdit }
    else if field = Field.verboseBox then
      saveLoop isValidArduinoPath rest
        { s with settings := s.settings.setVerboseUpload s.widget.verboseBox }
    else
      saveLoop isValidArduinoPath rest s

/-- `ConfigWidget::saveConfig` (lines 130-163): the loop, then, when the
loop ran to its end, `mChangedFields.clear()`, the two saves of the editor
and lexer settings, and `configureEditors()`. -/
def saveConfig (isValidArduinoPath : String → Bool) (order : List Field) (s : State) :
    Bool × State :=
  match saveLoop isValidArduinoPath order s with
  | (false, s1) => (false, s1)
  | (true, s1) =>
    let w := { s1.widget with mChangedFields := ∅ }
    let st := (s1.settings.saveEditorSettings w.mEditor).saveLexerProperties w.mEditor.lexer
    (true, { s1 with widget := w, settings := st,
                     configureEditorsCalls := s1.configureEditorsCalls + 1 })

/-! ## The host dialog -/

/-- `QDialog::Accepted`. -/
def Accepted : Int := 1
/-- `QDialog::Rejected`. -/
def Rejected : Int := 0

/-- `ConfigDialog`: whether the dialog is shown, its result code, and
`mConfigWidget` with what it reaches. -/
structure ConfigDialog where
  visible : Bool
  result : Int
  inner : State
  deriving DecidableEq

/-- `ConfigDialog::apply` (lines 186-189). -/
def ConfigDialog.apply (isValidArduinoPath : String → Bool) (order : List Field)
    (d : ConfigDialog) : Bool × ConfigDialog :=
  let r := saveConfig isValidArduinoPath order d.inner
  (r.1, { d with inner := r.2 })

/-- `ConfigDialog::accept` (lines 191-198). -/
def ConfigDialog.accept (isValidArduinoPath : String → Bool) (order : List Field)
    (d : ConfigDialog) : ConfigDialog :=
  match ConfigDialog.apply isValidArduinoPath order d with
  | (true, d1) => { d1 with visible := false, result := Accepted }
  | (false, d1) => d1

/-! ## Editing sessions -/

/-- What can happen in the dialog between two commits: the slots of
`ConfigWidget`, a page activation, and the user typing into an edit or
toggling the check box. -/
inductive EditOp where
  | fieldChange (sender : Field)
  | chooseFont (dialog : Option QFont)
  | chooseArduinoPath (path : String)
  | chooseSketchbookPath (path : String)
  | initializePage (index : Int)
  | typeArduinoPath (text : String)
  | typeSketchbookPath (text : String)
  | setVerbose (checked : Bool)

/-- The effect of one editing operation. -/
def EditOp.run (op : EditOp) (s : State) : State :=
  match op with
  | .fieldChange sender => { s with widget := ArduIDE.fieldChange sender s.widget }
  | .chooseFont dialog => { s with widget := ArduIDE.chooseFont dialog s.widget }
  | .chooseArduinoPath path => { s with widget := ArduIDE.chooseArduinoPath path s.widget }
  | .chooseSketchbookPath path => { s with widget := ArduIDE.chooseSketchbookPath path s.widget }
  | .initializePage index => ArduIDE.initializePage index s
  | .typeArduinoPath text => { s with widget := setArduinoPathText text s.widget }
  | .typeSketchbookPath text => { s with widget := setSketchbookPathText text s.widget }
  | .setVerbose checked => { s with widget := setVerboseChecked checked s.widget }

/-- A sequence of editing operations, run from left to right. -/
def runOps (ops : List EditOp) (s : State) : State :=
  ops.foldl (fun acc op => op.run acc) s

/-! ## Concrete states used in examples -/

/-- A font. -/
def monospace10 : QFont := { family := "Monospace", pointSize := 10 }
/-- A toolchain check that accepts two installation directories. -/
def isInstalled (path : String) : Bool :=
  path == "/opt/arduino" || path == "/usr/share/arduino"

/-- A settings store with a valid Arduino path and verbose upload off. -/
def store0 : Settings :=
  { arduinoPath := "/opt/arduino", sketchPath := "/home/u/sketchbook",
    verboseUpload := false, editorFont := monospace10, lexerFont := monospace10 }

/-- The controls right after all three pages were filled from `store0`,
with nothing changed. -/
def widget0 : ConfigWidget :=
  { arduinoPathEdit := "/opt/arduino", sketchbookPathEdit := "/home/u/sketchbook",
    verboseBox := false,
    fontLabel := { selectedFont := monospace10, font := monospace10, text := "Monospace 10" },
    mChangedFields := ∅,
    mEditor := { text := sampleText, lexer := { defaultFont := monospace10, font := monospace10 } } }

/-- The dialog state with `store0` and `widget0`. -/
def state0 : State :=
  { settings := store0, widget := widget0, warnings := [], configureEditorsCalls := 0 }

/-- The scenario of the specification: the Arduino path was changed to
`/tmp/not-a-toolchain` and the verbose box was ticked. -/
def scenario : State :=
  runOps [EditOp.typeArduinoPath "/tmp/not-a-toolchain", EditOp.setVerbose true] state0

/-- Three valid edits: another installed toolchain, another sketchbook and
the verbose box ticked. -/
def validEdits : State :=
  runOps [EditOp.typeArduinoPath "/usr/share/arduino",
          EditOp.typeSketchbookPath "/home/u/projects", EditOp.setVerbose true] state0

/-- An invalid Arduino path together with a changed sketchbook path. -/
def scenarioSketch : State :=
  runOps [EditOp.typeArduinoPath "/tmp/not-a-toolchain",
          EditOp.typeSketchbookPath "/home/u/projects"] state0

/-- The Paths and Build pages were shown, then the user typed another
Arduino path and ticked the verbose box. -/
def pendingEdits : State :=
  runOps [EditOp.initializePage PathsIndex, EditOp.initializePage BuildIndex,
          EditOp.typeArduinoPath "/usr/share/arduino", EditOp.setVerbose true] state0

/-- The loop never writes to a widget. -/
theorem saveLoop_widget (v : String → Bool) (o : List Field) (s : State) :
    (saveLoop v o s).2.widget = s.widget := by
  induction o generalizing s with
  | nil => rfl
  | cons f rest ih =>
    cases f <;> simp only [saveLoop, reduceCtorEq, if_false, if_true]
    · split
      · rfl
      · rw [ih]
    · rw [ih]
    · rw [ih]
    · rw [ih]

/-- The loop leaves through `return false` exactly when it meets the Arduino
path edit while its text is not a valid Arduino path. -/
theorem saveLoop_fst_eq_false_iff (v : String → Bool) (o : List Field) (s : State) :
    (saveLoop v o s).1 = false ↔
      Field.arduinoPathEdit ∈ o ∧ v s.widget.arduinoPathEdit = false := by
  induction o generalizing s with
  | nil => simp [saveLoop]
  | cons f rest ih =>
    cases f <;> simp only [saveLoop, reduceCtorEq, if_false, if_true]
    · cases hv : v s.widget.arduinoPathEdit
      · simp
      · simp [ih, hv]
    · simp [ih]
    · simp [ih]
    · simp [ih]

/-- The loop does not call `configureEditors`. -/
theorem saveLoop_calls (v : String → Bool) (o : List Field) (s : State) :
    (saveLoop v o s).2.configureEditorsCalls = s.configureEditorsCalls := by
  induction o generalizing s with
  | nil => rfl
  | cons f rest ih =>
    cases f <;> simp only [saveLoop, reduceCtorEq, if_false, if_true]
    · split
      · rfl
      · rw [ih]
    · rw [ih]
    · rw [ih]
    · rw [ih]

/-- The loop shows one warning when it fails and none when it succeeds. -/
theorem saveLoop_warnings (v : String → Bool) (o : List Field) (s : State) :
    (saveLoop v o s).2.warnings =
      if (saveLoop v o s).1 then s.warnings
      else s.warnings ++ [invalidArduinoPathWarning] := by
  induction o generalizing s with
  | nil => rfl
  | cons f rest ih =>
    cases f <;> simp only [saveLoop, reduceCtorEq, if_false, if_true]
    · split
      · simp
      · rw [ih]
    · rw [ih]
    · rw [ih]
    · rw [ih]

/-- A traversal that does not visit the Arduino path edit leaves the stored
Arduino path alone. -/
theorem saveLoop_arduinoPath_of_not_mem (v : String → Bool) (o : List Field) (s : State)
    (h : Field.arduinoPathEdit ∉ o) :
    (saveLoop v o s).2.settings.arduinoPath = s.settings.arduinoPath := by
  induction o generalizing s with
  | nil => rfl
  | cons f rest ih =>
    have hr : Field.arduinoPathEdit ∉ rest := fun hm => h (List.mem_cons_of_mem _ hm)
    cases f <;> simp only [saveLoop, reduceCtorEq, if_false, if_true]
    · exact absurd (List.mem_cons_self _ _) h
    · rw [ih _ hr]; rfl
    · rw [ih _ hr]; rfl
    · rw [ih _ hr]

/-- A traversal that does not visit the sketchbook path edit leaves the
stored sketchbook path alone. -/
theorem saveLoop_sketchPath_of_not_mem (v : String → Bool) (o : List Field) (s : State)
    (h : Field.sketchbookPathEdit ∉ o) :
    (saveLoop v o s).2.settings.sketchPath = s.settings.sketchPath := by
  induction o generalizing s with
  | nil => rfl
  | cons f rest ih =>
    have hr : Field.sketchbookPathEdit ∉ rest := fun hm => h (List.mem_cons_of_mem _ hm)
    cases f <;> simp only [saveLoop, reduceCtorEq, if_false, if_true]
    · split
      · rfl
      · rw [ih _ hr]; rfl
    · exact absurd (List.mem_cons_self _ _) h
    · rw [ih _ hr]; rfl
    · rw [ih _ hr]

/-- A traversal that does not visit the verbose box leaves the stored flag
alone. -/
theorem saveLoop_verboseUpload_of_not_mem (v : String → Bool) (o : List Field) (s : State)
    (h : Field.verboseBox ∉ o) :
    (saveLoop v o s).2.settings.verboseUpload = s.settings.verboseUpload := by
  induction o generalizing s with
  | nil => rfl
  | cons f rest ih =>
    have hr : Field.verboseBox ∉ rest := fun hm => h (List.mem_cons_of_mem _ hm)
    cases f <;> simp only [saveLoop, reduceCtorEq, if_false, if_true]
    · split
      · rfl
      · rw [ih _ hr]; rfl
    · rw [ih _ hr]; rfl
    · exact absurd (List.mem_cons_self _ _) h
    · rw [ih _ hr]

/-- When the loop runs to its end and visited the Arduino path edit, the
stored Arduino path is the text of the edit. -/
theorem saveLoop_arduinoPath_of_mem (v : String → Bool) (o : List Field) (s : State)
    (ht : (saveLoop v o s).1 = true) (h : Field.arduinoPathEdit ∈ o) :
    (saveLoop v o s).2.settings.arduinoPath = s.widget.arduinoPathEdit := by
  induction o generalizing s with
  | nil => cases h
  | cons f rest ih =>
    cases f <;> simp only [saveLoop, reduceCtorEq, if_false, if_true] at ht ⊢
    · split at ht
      · cases ht
      · split
        · contradiction
        · by_cases hr : Field.arduinoPathEdit ∈ rest
          · exact ih _ ht hr
          · rw [saveLoop_arduinoPath_of_not_mem v rest _ hr]; rfl
    · exact ih _ ht (by simpa using h)
    · exact ih _ ht (by simpa using h)
    · exact ih _ ht (by simpa using h)

/-- When the loop runs to its end and visited the sketchbook path edit, the
stored sketchbook path is the text of the edit. -/
theorem saveLoop_sketchPath_of_mem (v : String → Bool) (o : List Field) (s : State)
    (ht : (saveLoop v o s).1 = true) (h : Field.sketchbookPathEdit ∈ o) :
    (saveLoop v o s).2.settings.sketchPath = s.widget.sketchbookPathEdit := by
  induction o generalizing s with
  | nil => cases h
  | cons f rest ih =>
    cases f <;> simp only [saveLoop, reduceCtorEq, if_false, if_true] at ht ⊢
    · split at ht
      · cases ht
      · split
        · contradiction
        · exact ih _ ht (by simpa using h)
    · by_cases hr : Field.sketchbookPathEdit ∈ rest
      · exact ih _ ht hr
      · rw [saveLoop_sketchPath_of_not_mem v rest _ hr]; rfl
    · exact ih _ ht (by simpa using h)
    · exact ih _ ht (by simpa using h)

/-- When the loop runs to its end and visited the verbose box, the stored
flag is the state of the box. -/
theorem saveLoop_verboseUpload_of_mem (v : String → Bool) (o : List Field) (s : State)
    (ht : (saveLoop v o s).1 = true) (h : Field.verboseBox ∈ o) :
    (saveLoop v o s).2.settings.verboseUpload = s.widget.verboseBox := by
  induction o generalizing s with
  | nil => cases h
  | cons f rest ih =>
    cases f <;> simp only [saveLoop, reduceCtorEq, if_false, if_true] at ht ⊢
    · split at ht
      · cases ht
      · split
        · contradiction
        · exact ih _ ht (by simpa using h)
    · exact ih _ ht (by simpa using h)
    · by_cases hr : Field.verboseBox ∈ rest
      · exact ih _ ht hr
      · rw [saveLoop_verboseUpload_of_not_mem v rest _ hr]; rfl
    · exact ih _ ht (by simpa using h)

/-! ## `saveConfig` in terms of its loop -/

/-- The result of `saveConfig` is the result of its loop. -/
theorem saveConfig_fst (v : String → Bool) (o : List Field) (s : State) :
    (saveConfig v o s).1 = (saveLoop v o s).1 := by
  unfold saveConfig
  rcases hl : saveLoop v o s with ⟨b, s1⟩
  cases b <;> rfl

/-- A failed `saveConfig` stops where its loop stopped. -/
theorem saveConfig_snd_of_false (v : String → Bool) (o : List Field) (s : State)
    (h : (saveLoop v o s).1 = false) : (saveConfig v o s).2 = (saveLoop v o s).2 := by
  unfold saveConfig
  rcases hl : saveLoop v o s with ⟨b, s1⟩
  rw [hl] at h
  cases b
  · rfl
  · cases h

/-- A successful `saveConfig`: the state after the loop, with
`mChangedFields` cleared, the editor and lexer settings saved and the
editors reconfigured. -/
theorem saveConfig_snd_of_true (v : String → Bool) (o : List Field) (s : State)
    (h : (saveLoop v o s).1 = true) :
    (saveConfig v o s).2 =
      { (saveLoop v o s).2 with
        widget := { (saveLoop v o s).2.widget with mChangedFields := ∅ },
        settings :=
          ((saveLoop v o s).2.settings.saveEditorSettings (saveLoop v o s).2.widget.mEditor
            ).saveLexerProperties (saveLoop v o s).2.widget.mEditor.lexer,
        configureEditorsCalls := (saveLoop v o s).2.configureEditorsCalls + 1 } := by
  unfold saveConfig
  rcases hl : saveLoop v o s with ⟨b, s1⟩
  rw [hl] at h
  cases b
  · cases h
  · rfl

/-! ## The claims -/

/-- C1 (atomic commit), evaluated on the code: in the scenario of the
specification the commit fails under both traversal orders, but when the
valid field is visited before the invalid Arduino path its value is already
stored when the function returns `false`.  The same happens with a changed
sketchbook path as the valid field. -/
theorem saveConfig_not_atomic_valid_first :
    IterationOrder [Field.verboseBox, Field.arduinoPathEdit] scenario.widget.mChangedFields ∧
    isInstalled scenario.widget.arduinoPathEdit = false ∧
    (saveConfig isInstalled [Field.verboseBox, Field.arduinoPathEdit] scenario).1 = false ∧
    scenario.settings.verboseUpload = false ∧
    (saveConfig isInstalled [Field.verboseBox, Field.arduinoPathEdit]
      scenario).2.settings.verboseUpload = true ∧
    IterationOrder [Field.sketchbookPathEdit, Field.arduinoPathEdit]
      scenarioSketch.widget.mChangedFields ∧
    (saveConfig isInstalled [Field.sketchbookPathEdit, Field.arduinoPathEdit]
      scenarioSketch).1 = false ∧
    scenarioSketch.settings.sketchPath = "/home/u/sketchbook" ∧
    (saveConfig isInstalled [Field.sketchbookPathEdit, Field.arduinoPathEdit]
      scenarioSketch).2.settings.sketchPath = "/home/u/projects" := by
  decide

/-- C2: when `saveConfig` returns `false`, `mChangedFields` (and every other
member of the widget) is what it was before the call. -/
theorem saveConfig_false_keeps_changedFields (v : String → Bool) (o : List Field) (s : State)
    (h : (saveConfig v o s).1 = false) :
    (saveConfig v o s).2.widget.mChangedFields = s.widget.mChangedFields ∧
    (saveConfig v o s).2.widget = s.widget := by
  rw [saveConfig_fst] at h
  rw [saveConfig_snd_of_false v o s h, saveLoop_widget]
  exact ⟨rfl, rfl⟩

/-- C2 at the scenario of the specification: the commit fails and both
fields are still in `mChangedFields`. -/
theorem saveConfig_false_keeps_changedFields_witness :
    (saveConfig isInstalled [Field.verboseBox, Field.arduinoPathEdit] scenario).1 = false ∧
    ((saveConfig isInstalled [Field.verboseBox, Field.arduinoPathEdit]
        scenario).2.widget.mChangedFields = scenario.widget.mChangedFields ∧
      (saveConfig isInstalled [Field.verboseBox, Field.arduinoPathEdit]
        scenario).2.widget = scenario.widget) ∧
    scenario.widget.mChangedFields = {Field.arduinoPathEdit, Field.verboseBox} :=
  ⟨by decide,
   saveConfig_false_keeps_changedFields isInstalled
     [Field.verboseBox, Field.arduinoPathEdit] scenario (by decide),
   by decide⟩

/-- C3: when `saveConfig` returns `true`, `mChangedFields` is empty
afterwards, and for each of the Arduino path edit, the sketchbook path edit
and the verbose box that was in `mChangedFields`, the stored setting is the
value the widget held at the call. -/
theorem saveConfig_true_clears_and_stores (v : String → Bool) (o : List Field) (s : State)
    (ho : IterationOrder o s.widget.mChangedFields) (h : (saveConfig v o s).1 = true) :
    (saveConfig v o s).2.widget.mChangedFields = ∅ ∧
    (Field.arduinoPathEdit ∈ s.widget.mChangedFields →
      (saveConfig v o s).2.settings.arduinoPath = s.widget.arduinoPathEdit) ∧
    (Field.sketchbookPathEdit ∈ s.widget.mChangedFields →
      (saveConfig v o s).2.settings.sketchPath = s.widget.sketchbookPathEdit) ∧
    (Field.verboseBox ∈ s.widget.mChangedFields →
      (saveConfig v o s).2.settings.verboseUpload = s.widget.verboseBox) := by
  rw [saveConfig_fst] at h
  rw [saveConfig_snd_of_true v o s h]
  refine ⟨rfl, ?_, ?_, ?_⟩
  · intro hm
    exact saveLoop_arduinoPath_of_mem v o s h ((ho.2 _).2 hm)
  · intro hm
    exact saveLoop_sketchPath_of_mem v o s h ((ho.2 _).2 hm)
  · intro hm
    exact saveLoop_verboseUpload_of_mem v o s h ((ho.2 _).2 hm)

/-- C3 at three valid edits: the commit succeeds, the set is empty and the
three settings hold the pending values. -/
theorem saveConfig_true_clears_and_stores_witness :
    IterationOrder [Field.verboseBox, Field.arduinoPathEdit, Field.sketchbookPathEdit]
      validEdits.widget.mChangedFields ∧
    (saveConfig isInstalled [Field.verboseBox, Field.arduinoPathEdit,
      Field.sketchbookPathEdit] validEdits).1 = true ∧
    ((saveConfig isInstalled [Field.verboseBox, Field.arduinoPathEdit,
        Field.sketchbookPathEdit] validEdits).2.widget.mChangedFields = ∅ ∧
      (Field.arduinoPathEdit ∈ validEdits.widget.mChangedFields →
        (saveConfig isInstalled [Field.verboseBox, Field.arduinoPathEdit,
          Field.sketchbookPathEdit] validEdits).2.settings.arduinoPath =
          validEdits.widget.arduinoPathEdit) ∧
      (Field.sketchbookPathEdit ∈ validEdits.widget.mChangedFields →
        (saveConfig isInstalled [Field.verboseBox, Field.arduinoPathEdit,
          Field.sketchbookPathEdit] validEdits).2.settings.sketchPath =
          validEdits.widget.sketchbookPathEdit) ∧
      (Field.verboseBox ∈ validEdits.widget.mChangedFields →
        (saveConfig isInstalled [Field.verboseBox, Field.arduinoPathEdit,
          Field.sketchbookPathEdit] validEdits).2.settings.verboseUpload =
          validEdits.widget.verboseBox)) ∧
    (saveConfig isInstalled [Field.verboseBox, Field.arduinoPathEdit,
      Field.sketchbookPathEdit] validEdits).2.settings.arduinoPath = "/usr/share/arduino" :=
  ⟨by decide, by decide,
   saveConfig_true_clears_and_stores isInstalled
     [Field.verboseBox, Field.arduinoPathEdit, Field.sketchbookPathEdit] validEdits
     (by decide) (by decide),
   by decide⟩

/-- C4: `saveConfig` returns `false` exactly when the Arduino path edit is in
`mChangedFields` and its text is not a valid Arduino path; so the result is
the same under any two traversal orders, and a set without the Arduino path
edit never fails. -/
theorem saveConfig_false_iff_invalid_arduinoPath (v : String → Bool) (o1 o2 : List Field)
    (s : State) (h1 : IterationOrder o1 s.widget.mChangedFields)
    (h2 : IterationOrder o2 s.widget.mChangedFields) :
    ((saveConfig v o1 s).1 = false ↔
      Field.arduinoPathEdit ∈ s.widget.mChangedFields ∧ v s.widget.arduinoPathEdit = false) ∧
    (saveConfig v o1 s).1 = (saveConfig v o2 s).1 ∧
    (Field.arduinoPathEdit ∉ s.widget.mChangedFields → (saveConfig v o1 s).1 = true) := by
  have key : ∀ o, IterationOrder o s.widget.mChangedFields →
      ((saveConfig v o s).1 = false ↔
        Field.arduinoPathEdit ∈ s.widget.mChangedFields ∧
          v s.widget.arduinoPathEdit = false) := by
    intro o ho
    rw [saveConfig_fst, saveLoop_fst_eq_false_iff, ho.2]
  refine ⟨key o1 h1, ?_, ?_⟩
  · have e1 := key o1 h1
    have e2 := key o2 h2
    cases hb1 : (saveConfig v o1 s).1 <;> cases hb2 : (saveConfig v o2 s).1
    · rfl
    · exact absurd (e2.2 (e1.1 hb1)) (by simp [hb2])
    · exact absurd (e1.2 (e2.1 hb2)) (by simp [hb1])
    · rfl
  · intro hn
    cases hb : (saveConfig v o1 s).1
    · exact absurd ((key o1 h1).1 hb).1 hn
    · rfl

/-- C4 at the scenario of the specification, under its two traversal
orders. -/
theorem saveConfig_false_iff_invalid_arduinoPath_witness :
    IterationOrder [Field.verboseBox, Field.arduinoPathEdit] scenario.widget.mChangedFields ∧
    IterationOrder [Field.arduinoPathEdit, Field.verboseBox] scenario.widget.mChangedFields ∧
    (((saveConfig isInstalled [Field.verboseBox, Field.arduinoPathEdit] scenario).1 = false ↔
        Field.arduinoPathEdit ∈ scenario.widget.mChangedFields ∧
          isInstalled scenario.widget.arduinoPathEdit = false) ∧
      (saveConfig isInstalled [Field.verboseBox, Field.arduinoPathEdit] scenario).1 =
        (saveConfig isInstalled [Field.arduinoPathEdit, Field.verboseBox] scenario).1 ∧
      (Field.arduinoPathEdit ∉ scenario.widget.mChangedFields →
        (saveConfig isInstalled [Field.verboseBox, Field.arduinoPathEdit] scenario).1 = true)) :=
  ⟨by decide, by decide,
   saveConfig_false_iff_invalid_arduinoPath isInstalled
     [Field.verboseBox, Field.arduinoPathEdit] [Field.arduinoPathEdit, Field.verboseBox]
     scenario (by decide) (by decide)⟩

/-- Recording a change twice is recording it once. -/
theorem fieldChange_fieldChange (f : Field) (w : ConfigWidget) :
    fieldChange f (fieldChange f w) = fieldChange f w := by
  simp [fieldChange]

/-- Recording a change to a field that is already recorded changes nothing. -/
theorem fieldChange_of_mem (f : Field) (w : ConfigWidget) (h : f ∈ w.mChangedFields) :
    fieldChange f w = w := by
  cases w
  simp only [fieldChange] at h ⊢
  rw [Finset.insert_eq_of_mem h]

/-- C5: `fieldChange` with the same sender `N ≥ 1` times gives what one call
gives, `mChangedFields` with the sender inserted; the sender occurs in it
once; and when the sender was already in the set nothing changes. -/
theorem fieldChange_iterate_idempotent (f : Field) (w : ConfigWidget) (N : Nat)
    (hN : 1 ≤ N) :
    Nat.iterate (fieldChange f) N w = fieldChange f w ∧
    (Nat.iterate (fieldChange f) N w).mChangedFields = insert f w.mChangedFields ∧
    (Nat.iterate (fieldChange f) N w).mChangedFields.val.count f = 1 ∧
    (f ∈ w.mChangedFields → Nat.iterate (fieldChange f) N w = w) := by
  have e : Nat.iterate (fieldChange f) N w = fieldChange f w := by
    obtain ⟨n, rfl⟩ : ∃ n, N = n + 1 := ⟨N - 1, by omega⟩
    clear hN
    induction n with
    | zero => rfl
    | succ k ih => rw [Function.iterate_succ_apply', ih, fieldChange_fieldChange]
  rw [e]
  refine ⟨rfl, rfl, ?_, fun hm => fieldChange_of_mem f w hm⟩
  exact Multiset.count_eq_one_of_mem (insert f w.mChangedFields).nodup
    (Finset.mem_insert_self f w.mChangedFields)

/-- C5 at three changes of the verbose box, in a widget where the Arduino
path edit is already recorded. -/
theorem fieldChange_iterate_idempotent_witness :
    (1 : Nat) ≤ 3 ∧
    (Nat.iterate (fieldChange Field.verboseBox) 3 scenarioSketch.widget =
        fieldChange Field.verboseBox scenarioSketch.widget ∧
      (Nat.iterate (fieldChange Field.verboseBox) 3 scenarioSketch.widget).mChangedFields =
        insert Field.verboseBox scenarioSketch.widget.mChangedFields ∧
      (Nat.iterate (fieldChange Field.verboseBox) 3
        scenarioSketch.widget).mChangedFields.val.count Field.verboseBox = 1 ∧
      (Field.verboseBox ∈ scenarioSketch.widget.mChangedFields →
        Nat.iterate (fieldChange Field.verboseBox) 3 scenarioSketch.widget =
          scenarioSketch.widget)) ∧
    (Nat.iterate (fieldChange Field.verboseBox) 3 scenarioSketch.widget).mChangedFields =
      {Field.arduinoPathEdit, Field.sketchbookPathEdit, Field.verboseBox} :=
  ⟨by decide,
   fieldChange_iterate_idempotent Field.verboseBox scenarioSketch.widget 3 (by decide),
   by decide⟩

/-- `initializePage` reads the settings store and writes only widgets. -/
theorem initializePage_host (index : Int) (s : State) :
    (initializePage index s).settings = s.settings ∧
    (initializePage index s).warnings = s.warnings ∧
    (initializePage index s).configureEditorsCalls = s.configureEditorsCalls := by
  unfold initializePage
  split
  · exact ⟨rfl, rfl, rfl⟩
  · split
    · exact ⟨rfl, rfl, rfl⟩
    · split <;> exact ⟨rfl, rfl, rfl⟩

/-- One editing operation leaves the settings store, the warnings and the
count of `configureEditors` calls as they are. -/
theorem EditOp.run_host (op : EditOp) (s : State) :
    (op.run s).settings = s.settings ∧
    (op.run s).warnings = s.warnings ∧
    (op.run s).configureEditorsCalls = s.configureEditorsCalls := by
  cases op with
  | initializePage index => exact initializePage_host index s
  | fieldChange sender => exact ⟨rfl, rfl, rfl⟩
  | chooseFont dialog => exact ⟨rfl, rfl, rfl⟩
  | chooseArduinoPath path => exact ⟨rfl, rfl, rfl⟩
  | chooseSketchbookPath path => exact ⟨rfl, rfl, rfl⟩
  | typeArduinoPath text => exact ⟨rfl, rfl, rfl⟩
  | typeSketchbookPath text => exact ⟨rfl, rfl, rfl⟩
  | setVerbose checked => exact ⟨rfl, rfl, rfl⟩

/-- C7: after any finite sequence of editing operations (`fieldChange`,
`chooseFont`, `chooseArduinoPath`, `chooseSketchbookPath`, `initializePage`,
typing and ticking) with no `saveConfig` in it, the settings store is the
one before the sequence; nothing was shown to the user as a warning and no
editor was reconfigured either. -/
theorem runOps_preserves_settings (ops : List EditOp) (s : State) :
    (runOps ops s).settings = s.settings ∧
    (runOps ops s).warnings = s.warnings ∧
    (runOps ops s).configureEditorsCalls = s.configureEditorsCalls := by
  unfold runOps
  induction ops generalizing s with
  | nil => exact ⟨rfl, rfl, rfl⟩
  | cons op rest ih =>
    rw [List.foldl_cons]
    obtain ⟨h1, h2, h3⟩ := ih (op.run s)
    obtain ⟨g1, g2, g3⟩ := EditOp.run_host op s
    exact ⟨h1.trans g1, h2.trans g2, h3.trans g3⟩

/-- After `setText`, the Arduino path edit shows the text. -/
theorem setArduinoPathText_text (t : String) (w : ConfigWidget) :
    (setArduinoPathText t w).arduinoPathEdit = t ∧
    (setArduinoPathText t w).sketchbookPathEdit = w.sketchbookPathEdit := by
  unfold setArduinoPathText
  split
  · next h => exact ⟨h, rfl⟩
  · exact ⟨rfl, rfl⟩

/-- After `setText`, the sketchbook path edit shows the text. -/
theorem setSketchbookPathText_text (t : String) (w : ConfigWidget) :
    (setSketchbookPathText t w).sketchbookPathEdit = t ∧
    (setSketchbookPathText t w).arduinoPathEdit = w.arduinoPathEdit := by
  unfold setSketchbookPathText
  split
  · next h => exact ⟨h, rfl⟩
  · exact ⟨rfl, rfl⟩

/-- After `setChecked`, the verbose box shows the state. -/
theorem setVerboseChecked_checked (b : Bool) (w : ConfigWidget) :
    (setVerboseChecked b w).verboseBox = b := by
  unfold setVerboseChecked
  split
  · next h => exact h
  · rfl

/-- C8 as stated fails: the Paths and Build pages were shown, the user typed
another Arduino path and ticked the verbose box, and a second
`initializePage` of each page puts the stored values back into the
controls. -/
theorem initializePage_overwrites_pending_edit :
    pendingEdits.widget.arduinoPathEdit = "/usr/share/arduino" ∧
    pendingEdits.settings.arduinoPath = "/opt/arduino" ∧
    (initializePage PathsIndex pendingEdits).widget.arduinoPathEdit = "/opt/arduino" ∧
    pendingEdits.widget.verboseBox = true ∧
    pendingEdits.settings.verboseUpload = false ∧
    (initializePage BuildIndex pendingEdits).widget.verboseBox = false := by
  decide

/-- C8, amended: `initializePage` fills the controls of the Paths and Build
pages from the settings store on every call, whatever they showed before,
and the font label of the Editor page from the preview lexer; a second call
right after the first changes nothing. -/
theorem initializePage_repopulates (index : Int) (s : State) :
    (initializePage PathsIndex s).widget.arduinoPathEdit = s.settings.arduinoPath ∧
    (initializePage PathsIndex s).widget.sketchbookPathEdit = s.settings.sketchPath ∧
    (initializePage BuildIndex s).widget.verboseBox = s.settings.verboseUpload ∧
    (initializePage EditorIndex s).widget.fontLabel.selectedFont = s.widget.mEditor.lexer.font ∧
    (initializePage EditorIndex s).widget.mEditor.lexer = s.widget.mEditor.lexer ∧
    initializePage index (initializePage index s) = initializePage index s := by
  refine ⟨?_, ?_, ?_, rfl, rfl, ?_⟩
  · have e : (initializePage PathsIndex s).widget =
        setSketchbookPathText s.settings.sketchPath
          (setArduinoPathText s.settings.arduinoPath s.widget) := rfl
    rw [e, (setSketchbookPathText_text _ _).2, (setArduinoPathText_text _ _).1]
  · have e : (initializePage PathsIndex s).widget =
        setSketchbookPathText s.settings.sketchPath
          (setArduinoPathText s.settings.arduinoPath s.widget) := rfl
    rw [e, (setSketchbookPathText_text _ _).1]
  · have e : (initializePage BuildIndex s).widget =
        setVerboseChecked s.settings.verboseUpload s.widget := rfl
    rw [e, setVerboseChecked_checked]
  · unfold initializePage
    by_cases h0 : index = EditorIndex
    · simp only [if_pos h0]
      rfl
    · by_cases h1 : index = PathsIndex
      · simp only [if_neg h0, if_pos h1]
        have ha := (setArduinoPathText_text s.settings.arduinoPath s.widget).1
        have hs := (setSketchbookPathText_text s.settings.sketchPath
          (setArduinoPathText s.settings.arduinoPath s.widget))
        have e1 : setArduinoPathText s.settings.arduinoPath
            (setSketchbookPathText s.settings.sketchPath
              (setArduinoPathText s.settings.arduinoPath s.widget)) =
            setSketchbookPathText s.settings.sketchPath
              (setArduinoPathText s.settings.arduinoPath s.widget) := by
          conv_lhs => rw [setArduinoPathText, if_pos (hs.2.trans ha)]
        rw [e1]
        conv_lhs => rw [setSketchbookPathText, if_pos hs.1]
      · by_cases h2 : index = BuildIndex
        · simp only [if_neg h0, if_neg h1, if_pos h2]
          have hv := setVerboseChecked_checked s.settings.verboseUpload s.widget
          conv_lhs => rw [setVerboseChecked, if_pos hv]
        · simp only [if_neg h0, if_neg h1, if_neg h2]

/-- One call of `saveConfig` has exactly one effect outside the widget and
the store: a warning when it fails, a `configureEditors` call when it
succeeds. -/
theorem saveConfig_one_effect (v : String → Bool) (o : List Field) (s : State) :
    (saveConfig v o s).2.configureEditorsCalls + (saveConfig v o s).2.warnings.length =
      s.configureEditorsCalls + s.warnings.length + 1 := by
  cases hb : (saveLoop v o s).1
  · rw [saveConfig_snd_of_false v o s hb, saveLoop_calls, saveLoop_warnings, hb]
    simp only [Bool.false_eq_true, if_false, List.length_append, List.length_singleton]
    omega
  · rw [saveConfig_snd_of_true v o s hb]
    show (saveLoop v o s).2.configureEditorsCalls + 1 + (saveLoop v o s).2.warnings.length = _
    rw [saveLoop_calls, saveLoop_warnings, hb]
    simp only [if_true]
    omega

/-- C9: `accept` runs the commit once (its effect on the widget, the store,
the warnings and the editors is that of one `saveConfig`, which shows one
warning or reconfigures the editors once); when the commit returned `true`
the dialog is hidden with result `Accepted`; when it returned `false` the
visibility and the result are as before; so an open dialog ends hidden with
result `Accepted` exactly when the commit returned `true`. -/
theorem accept_closes_iff_commit (v : String → Bool) (o : List Field) (d : ConfigDialog) :
    (ConfigDialog.accept v o d).inner = (saveConfig v o d.inner).2 ∧
    ((ConfigDialog.accept v o d).inner.configureEditorsCalls +
        (ConfigDialog.accept v o d).inner.warnings.length =
      d.inner.configureEditorsCalls + d.inner.warnings.length + 1) ∧
    ((saveConfig v o d.inner).1 = true →
      (ConfigDialog.accept v o d).visible = false ∧
      (ConfigDialog.accept v o d).result = Accepted) ∧
    ((saveConfig v o d.inner).1 = false →
      (ConfigDialog.accept v o d).visible = d.visible ∧
      (ConfigDialog.accept v o d).result = d.result) ∧
    (d.visible = true →
      (((ConfigDialog.accept v o d).visible = false ∧
        (ConfigDialog.accept v o d).result = Accepted) ↔
        (saveConfig v o d.inner).1 = true)) := by
  have key : ConfigDialog.accept v o d =
      if (saveConfig v o d.inner).1 = true then
        { visible := false, result := Accepted, inner := (saveConfig v o d.inner).2 }
      else { d with inner := (saveConfig v o d.inner).2 } := by
    unfold ConfigDialog.accept ConfigDialog.apply
    rcases saveConfig v o d.inner with ⟨b, s1⟩
    cases b <;> rfl
  have hin : (ConfigDialog.accept v o d).inner = (saveConfig v o d.inner).2 := by
    rw [key]
    split <;> rfl
  have ht : (saveConfig v o d.inner).1 = true →
      (ConfigDialog.accept v o d).visible = false ∧
      (ConfigDialog.accept v o d).result = Accepted := by
    intro h
    rw [key, if_pos h]
    exact ⟨rfl, rfl⟩
  have hf : (saveConfig v o d.inner).1 = false →
      (ConfigDialog.accept v o d).visible = d.visible ∧
      (ConfigDialog.accept v o d).result = d.result := by
    intro h
    rw [key, if_neg (by simp [h])]
    exact ⟨rfl, rfl⟩
  refine ⟨hin, ?_, ht, hf, ?_⟩
  · rw [hin]
    exact saveConfig_one_effect v o d.inner
  · intro hopen
    constructor
    · intro hc
      cases hb : (saveConfig v o d.inner).1
      · have := (hf hb).1
        rw [hc.1, hopen] at this
        cases this
      · rfl
    · exact ht

/-- C10: in the scenario of the specification (the Arduino path edit with an
invalid text and the verbose box with a state other than the stored flag are
in `mChangedFields`) there are two traversal orders of the same set under
which `saveConfig` returns `false` and leaves different settings stores:
with the verbose box first its state is stored, with the path edit first
nothing is. -/
theorem saveConfig_order_dependent_store :
    ∃ (s : State) (o1 o2 : List Field),
      s.widget.mChangedFields = {Field.arduinoPathEdit, Field.verboseBox} ∧
      isInstalled s.widget.arduinoPathEdit = false ∧
      s.widget.verboseBox ≠ s.settings.verboseUpload ∧
      IterationOrder o1 s.widget.mChangedFields ∧
      IterationOrder o2 s.widget.mChangedFields ∧
      o1 = [Field.verboseBox, Field.arduinoPathEdit] ∧
      o2 = [Field.arduinoPathEdit, Field.verboseBox] ∧
      (saveConfig isInstalled o1 s).1 = false ∧
      (saveConfig isInstalled o2 s).1 = false ∧
      (saveConfig isInstalled o1 s).2.settings ≠ (saveConfig isInstalled o2 s).2.settings ∧
      (saveConfig isInstalled o1 s).2.settings.verboseUpload = s.widget.verboseBox ∧
      (saveConfig isInstalled o2 s).2.settings = s.settings :=
  ⟨scenario, [Field.verboseBox, Field.arduinoPathEdit],
    [Field.arduinoPathEdit, Field.verboseBox], by decide⟩

end ArduIDE
